import Mathlib

/-!
# Verification of the VRRaumschrottmann debris simulation core

Shallow embedding of the repository's core gameplay code:
`GarbageField` (per-tick debris physics, pit disposal, deferred respawn),
`LaserTool` (targeting / pull, in its two source variants), `Player`
(carrier slot, attach / throw), `CollectorPit.checkCapture` and
`SceneManager.#checkCollectorCollisions` (the two capture passes), and the
per-tick orchestration order of the two `SceneManager` variants.

Conventions of the embedding:
* JS numbers are modelled as `ℚ`.  Every comparison the source makes on a
  Euclidean length (`Vector3.length`, `distanceTo`, `Math.hypot`) is
  modelled on the squared length against the squared bound, which is
  equivalent for nonnegative bounds.
* Values the runtime obtains from the environment (`Math.random()`,
  `Math.sin(...)`, a computed `1/length` used to normalize a vector) are
  passed in as explicit parameters.
* State mutated through object references is carried in explicit records
  (`Mesh`, `World`, `FieldState`) threaded through the step functions.
-/

namespace VRRaum

/-- A 3-component vector over `ℚ`, standing in for `THREE.Vector3`. -/
structure Vec3 where
  x : ℚ
  y : ℚ
  z : ℚ
deriving DecidableEq, Repr

namespace Vec3

def zero : Vec3 := ⟨0, 0, 0⟩

def add (a b : Vec3) : Vec3 := ⟨a.x + b.x, a.y + b.y, a.z + b.z⟩

def sub (a b : Vec3) : Vec3 := ⟨a.x - b.x, a.y - b.y, a.z - b.z⟩

/-- `multiplyScalar` / `addScaledVector` scaling. -/
def smul (k : ℚ) (v : Vec3) : Vec3 := ⟨k * v.x, k * v.y, k * v.z⟩

/-- Squared Euclidean length (`length()` is compared via its square). -/
def lengthSq (v : Vec3) : ℚ := v.x ^ 2 + v.y ^ 2 + v.z ^ 2

/-- Squared distance between two points. -/
def distSq (a b : Vec3) : ℚ := lengthSq (sub a b)

/-- `velocity.reflect(floorNormal)` with the upward normal `(0,1,0)`:
`v - 2 (v·n) n` flips only the `y` component. -/
def reflectUp (v : Vec3) : Vec3 := ⟨v.x, -v.y, v.z⟩

end Vec3

/-- The six debris state tags used in `mesh.userData.state`. -/
inductive DState where
  | floating
  | falling
  | pulled
  | held
  | thrown
  | respawning
deriving DecidableEq, Repr

/-- The per-debris record kept in `mesh.userData` (plus the mesh's own
position / rotation / visibility).  `thrownTime` is the optional throw
timestamp, `xrController` the optional controller reference stored by
`Player.attachCargo`. -/
structure Mesh where
  position : Vec3
  velocity : Vec3
  state : DState
  baseHeight : ℚ
  spin : ℚ × ℚ
  rotation : ℚ × ℚ
  thrownTime : Option ℚ
  visible : Bool
  xrController : Option Nat
deriving DecidableEq, Repr

/-- A default debris value used to build concrete test inputs. -/
def baseMesh : Mesh :=
  { position := Vec3.zero
    velocity := Vec3.zero
    state := .floating
    baseHeight := 0
    spin := (0, 0)
    rotation := (0, 0)
    thrownTime := none
    visible := true
    xrController := none }

/-! ## Shared numeric constants of the source -/

/-- `GarbageField.innerRadius` = `CollectorPit.radius` = 2.6. -/
def innerRadius : ℚ := 13 / 5

/-- `platformTop` = 0.6 in `GarbageField.update`. -/
def platformTop : ℚ := 3 / 5

/-- `platformRadius` = 18 in `GarbageField.update`. -/
def platformRadius : ℚ := 18

/-- The pit-disposal kill height `-15` in `GarbageField.update`. -/
def killY : ℚ := -15

/-- The `setTimeout` delay of `GarbageField.respawn`, in milliseconds. -/
def respawnDelayMs : ℚ := 300

/-- `throwCooldown` = 500 ms in `CollectorPit.checkCapture`. -/
def throwCooldown : ℚ := 500

/-- `GarbageCollector.collectionRadius` = 1.2. -/
def collectionRadius : ℚ := 6 / 5

/-- The `mesh.position.y < 1.2` bound of `CollectorPit.checkCapture`. -/
def pitCaptureY : ℚ := 6 / 5

/-- The `distance < 0.4` capture threshold of `#pullTowardsHand`. -/
def grabThreshold : ℚ := 2 / 5

/-! ## Capture passes -/

/-- The eligibility filter of `SceneManager.#checkCollectorCollisions`
(src/src/core/SceneManager.js lines 305-320): only `thrown` and
`floating` objects are tested; no time condition is consulted. -/
def collectorStateEligible (m : Mesh) : Bool :=
  decide (m.state = .thrown) || decide (m.state = .floating)

/-- `GarbageCollector.checkCollision`: distance from the collector's
position below `collectionRadius` (compared via squares). -/
def checkCollision (collectorPos : Vec3) (m : Mesh) : Bool :=
  decide (Vec3.distSq collectorPos m.position < collectionRadius ^ 2)

/-- One mesh's capture test of the `SceneManager` collector pass:
state-eligible and within some collector's radius. -/
def collectorCaptures (collectorPos : Vec3) (m : Mesh) : Bool :=
  collectorStateEligible m && checkCollision collectorPos m

/-- The states skipped outright by `CollectorPit.checkCapture`
(src/src/core/CollectorPit.js line 23): `respawning`, `pulled`, `held`
and `thrown` are never collected by the pit. -/
def DState.pitSkipped : DState → Bool
  | .respawning => true
  | .pulled => true
  | .held => true
  | .thrown => true
  | _ => false

/-- The "just thrown" test of `CollectorPit.checkCapture` line 26:
`mesh.userData.thrownTime && (now - mesh.userData.thrownTime) < 500`.
A stored timestamp of `0` is falsy in JS, hence the `t ≠ 0` conjunct. -/
def recentThrow (now : ℚ) (m : Mesh) : Bool :=
  match m.thrownTime with
  | some t => decide (t ≠ 0) && decide (now - t < throwCooldown)
  | none => false

/-- One mesh's capture test of `CollectorPit.checkCapture`
(src/src/core/CollectorPit.js lines 18-36). -/
def pitCaptures (now : ℚ) (m : Mesh) : Bool :=
  if !m.visible || m.state.pitSkipped then false
  else if decide (m.state = .floating) && recentThrow now m then false
  else
    decide (m.position.x ^ 2 + m.position.z ^ 2 < innerRadius ^ 2) &&
      decide (m.position.y < pitCaptureY)

/-! ## World model: debris list plus the tool and carrier slots -/

/-- Update the mesh stored at index `i`, if any (JS mutates through the
object reference; here the list entry is replaced). -/
def updMesh (ms : List Mesh) (i : Nat) (f : Mesh → Mesh) : List Mesh :=
  match ms[i]? with
  | some m => ms.set i (f m)
  | none => ms

theorem updMesh_getElem_self (ms : List Mesh) (i : Nat) (f : Mesh → Mesh) :
    (updMesh ms i f)[i]? = (ms[i]?).map f := by
  unfold updMesh
  cases h : ms[i]? with
  | none => simp [h]
  | some m =>
    rcases List.getElem?_eq_some_iff.mp h with ⟨hl, _⟩
    simp [List.getElem?_set_self hl]

theorem updMesh_getElem_ne (ms : List Mesh) (i j : Nat) (f : Mesh → Mesh)
    (hij : i ≠ j) : (updMesh ms i f)[j]? = ms[j]? := by
  unfold updMesh
  cases h : ms[i]? with
  | none => rfl
  | some m => exact List.getElem?_set_ne hij

theorem updMesh_eq_self (ms : List Mesh) (i : Nat) (f : Mesh → Mesh) (m : Mesh)
    (hm : ms[i]? = some m) (hf : f m = m) : updMesh ms i f = ms := by
  unfold updMesh
  rw [hm]
  apply List.ext_getElem?
  intro j
  rw [List.getElem?_set]
  split
  · next hij =>
    subst hij
    rcases List.getElem?_eq_some_iff.mp hm with ⟨hl, _⟩
    rw [if_pos hl, hf]
    exact hm.symm
  · rfl

/-- The mutable references shared by `Player` and `LaserTool`:
`meshes` is `garbageField.meshes`, `tool` is `LaserTool.currentTarget`
and `held` is `Player.heldMesh` (as indices into `meshes`). -/
structure World where
  meshes : List Mesh
  tool : Option Nat
  held : Option Nat
deriving DecidableEq, Repr

/-- The per-mesh effect of acquisition (LaserTool.js lines 62-66):
velocity zeroed, state `pulled`. -/
def acquireMark (mm : Mesh) : Mesh :=
  { mm with velocity := Vec3.zero, state := .pulled }

/-- The per-mesh effect of `Player.attachCargo` (lines 73-77): state
`held`, controller recorded. -/
def heldMark (ctrl : Option Nat) (mm : Mesh) : Mesh :=
  { mm with state := .held, xrController := ctrl }

/-- The per-mesh effect of `#releaseTarget` (line 226): back to
`floating`. -/
def floatMark (mm : Mesh) : Mesh :=
  { mm with state := .floating }

/-- The per-tick pull movement of `#pullTowardsHand` (LaserTool.js
lines 190-191): move straight toward the hand by
`delta * 6 * max(distance, 1)`, with `dist` the runtime length of the
direction vector (used both for `normalize()` and for `max`). -/
def pullMove (handPos : Vec3) (delta dist : ℚ) (mm : Mesh) : Mesh :=
  let step := Vec3.smul (delta * 6 * max dist 1 / dist) (Vec3.sub handPos mm.position)
  { mm with position := Vec3.add mm.position step }

/-! ## Carrier (`Player`) operations -/

/-- `Player.attachCargo` (src/src/core/Player.js lines 66-78): rejected
when a *different* mesh is held; otherwise stores the mesh in the slot,
sets its state to `held` and records the passed controller. -/
def attachCargo (w : World) (i : Nat) (ctrl : Option Nat) : World :=
  match w.held with
  | some j =>
    if j = i then
      { w with held := some i, meshes := updMesh w.meshes i (heldMark ctrl) }
    else w
  | none =>
    { w with held := some i, meshes := updMesh w.meshes i (heldMark ctrl) }

/-- `Player.throwCargo` (src/src/core/Player.js lines 80-88): no-op with
nothing held; otherwise velocity becomes the normalized direction times
`strength`, state becomes `thrown` and the slot is cleared.  `invLen`
is the runtime value of `1 / direction.length()` used by `normalize()`.
Note that `thrownTime` is left untouched here. -/
def throwCargo (w : World) (dir : Vec3) (invLen strength : ℚ) : World :=
  match w.held with
  | none => w
  | some i =>
    { w with held := none
             meshes := updMesh w.meshes i
               (fun m => { m with
                 velocity := Vec3.smul strength (Vec3.smul invLen dir)
                 state := .thrown }) }

/-- `LaserTool.throwHeldObject` (src/unnamed/part_003 lines 340-357):
throws via `throwCargo` with strength 80 and then stamps
`mesh.userData.thrownTime = performance.now()` on the thrown mesh. -/
def throwHeldObject (w : World) (dir : Vec3) (invLen now : ℚ) : World :=
  match w.held with
  | none => w
  | some i =>
    let w1 := throwCargo w dir invLen 80
    let stamp := fun (m : Mesh) => { m with thrownTime := some now }
    { w1 with meshes := updMesh w1.meshes i stamp }

/-! ## Targeting (`LaserTool`) operations -/

/-- `LaserTool.#releaseTarget` (both variants): if a target is
referenced, set it back to `floating`; clear the reference. -/
def releaseTarget (w : World) : World :=
  match w.tool with
  | none => w
  | some i =>
    { w with tool := none, meshes := updMesh w.meshes i floatMark }

/-- The acquisition step of `LaserTool.update` in
src/src/core/LaserTool.js (lines 60-67): with no current target and a
ray hit, the nearest hit is acquired *unconditionally* (no check of its
state), its velocity zeroed and its state set to `pulled`.  `hits` is
the raycaster's hit list, nearest first, as indices into `w.meshes`. -/
def acquireJs (w : World) (hits : List Nat) : World :=
  match w.tool, hits with
  | none, i :: _ =>
    { w with tool := some i, meshes := updMesh w.meshes i acquireMark }
  | _, _ => w

/-- The acquisition step of the pistol-variant `LaserTool` in
src/unnamed/part_003 (lines 71-79): like `acquireJs` but the nearest
hit is skipped (and nothing at all is acquired) when its state is
already `held`. -/
def acquirePistol (w : World) (hits : List Nat) : World :=
  match w.tool, hits with
  | none, i :: _ =>
    match w.meshes[i]? with
    | some m =>
      if m.state = .held then w
      else
        { w with tool := some i, meshes := updMesh w.meshes i acquireMark }
    | none => w
  | _, _ => w

/-- The race check of `LaserTool.update` (LaserTool.js lines 69-71):
a current target that has independently become `respawning` is released
(back to `floating`) and the reference cleared. -/
def releaseIfRespawning (w : World) : World :=
  match w.tool with
  | some i =>
    match w.meshes[i]? with
    | some m => if m.state = .respawning then releaseTarget w else w
    | none => w
  | none => w

/-- `LaserTool.#pullTowardsHand` of src/src/core/LaserTool.js (lines
172-192): within the 0.4 threshold the target is handed to the carrier
(`attachCargo`, which in this variant is passed no controller) and the
reference is cleared *unconditionally*; otherwise the target's position
is moved straight toward the hand by `delta * 6 * max(distance, 1)`.
`dist` is the runtime value of `direction.length()`; the comparison
`distance < 0.4` is modelled on squares. -/
def pullTowardsHand (w : World) (handPos : Vec3) (delta dist : ℚ) : World :=
  match w.tool with
  | none => w
  | some i =>
    match w.meshes[i]? with
    | none => w
    | some m =>
      if Vec3.distSq handPos m.position < grabThreshold ^ 2 then
        { meshes := (attachCargo w i none).meshes, tool := none,
          held := (attachCargo w i none).held }
      else
        { w with meshes := updMesh w.meshes i (pullMove handPos delta dist) }

/-- One active tick of `LaserTool.update` (LaserTool.js lines 41-78),
beam cosmetics omitted: acquisition, then the respawning race check,
then the pull step. -/
def toolUpdateJs (w : World) (active : Bool) (hits : List Nat)
    (handPos : Vec3) (delta dist : ℚ) : World :=
  if active then
    pullTowardsHand (releaseIfRespawning (acquireJs w hits)) handPos delta dist
  else w

/-! ## DebrisField (`GarbageField`) per-tick physics -/

/-- The states skipped by the loop of `GarbageField.update`
(src/src/core/GarbageField.js lines 59-62). -/
def DState.isSkipped : DState → Bool
  | .respawning => true
  | .pulled => true
  | .held => true
  | _ => false

/-- Environment values consumed by one per-mesh step of
`GarbageField.update`: the frame delta, the runtime value of
`Math.sin(time + floatOffset)`, the runtime value of
`(Math.random() - 0.5) * 2` drawn at a bounce, and the runtime value of
`1 / length` used by the vortex direction's `normalize()`. -/
structure StepEnv where
  delta : ℚ
  sinVal : ℚ
  randSpin : ℚ
  invDist : ℚ
deriving DecidableEq, Repr

/-- The physics body of `GarbageField.update` for one non-skipped mesh
(src/src/core/GarbageField.js lines 64-126): state/gravity logic,
position integration, bounce on the platform annulus, and rotation
advance.  `distFromCenter` comparisons are modelled on squares. -/
def stepBody (env : StepEnv) (m : Mesh) : Mesh :=
  let distSq := m.position.x ^ 2 + m.position.z ^ 2
  -- 1. state & gravity logic
  let stv :=
    if distSq < innerRadius ^ 2 then
      -- over the pit: gravity plus vortex; `thrown` keeps its state
      let st := if m.state = .thrown then m.state else DState.falling
      let vg : Vec3 := ⟨m.velocity.x, m.velocity.y - env.delta * 30, m.velocity.z⟩
      let vortexDir := Vec3.smul env.invDist ⟨-m.position.x, 0, -m.position.z⟩
      (st, Vec3.add vg (Vec3.smul (15 * env.delta) vortexDir), m.baseHeight)
    else
      match m.state with
      | .floating =>
        -- bob: set vy from the sinusoid, then damp by 0.95
        let v1 : Vec3 := ⟨m.velocity.x, env.sinVal * (1/2), m.velocity.z⟩
        (DState.floating, Vec3.smul (19/20) v1, m.baseHeight)
      | .thrown =>
        -- drag 0.99, then settle to floating below speed 0.1
        let v1 := Vec3.smul (99/100) m.velocity
        if v1.lengthSq < (1/10) ^ 2 then
          (DState.floating, v1, m.position.y)
        else
          (DState.thrown, v1, m.baseHeight)
      | .falling =>
        -- off-pit falling reverts to floating below speed 0.5
        if m.velocity.lengthSq < (1/2) ^ 2 then
          (DState.floating, m.velocity, m.baseHeight)
        else
          (DState.falling, m.velocity, m.baseHeight)
      | s => (s, m.velocity, m.baseHeight)
  let st1 := stv.1
  let v1 := stv.2.1
  let base1 := stv.2.2
  -- 2. apply movement
  let pos1 := Vec3.add m.position (Vec3.smul env.delta v1)
  -- 3. bounce on the solid platform annulus
  let bounced :=
    if innerRadius ^ 2 < distSq ∧ distSq < platformRadius ^ 2 ∧ pos1.y < platformTop then
      (Vec3.mk pos1.x platformTop pos1.z,
        Vec3.smul (7/10) (Vec3.reflectUp v1),
        (m.spin.1 + env.randSpin, m.spin.2))
    else
      (pos1, v1, m.spin)
  let pos2 := bounced.1
  let v2 := bounced.2.1
  let spin2 := bounced.2.2
  -- rotations
  let rot2 := (m.rotation.1 + env.delta * (2/5) * spin2.1,
               m.rotation.2 + env.delta * (3/5) * spin2.2)
  { m with position := pos2, velocity := v2, state := st1,
           baseHeight := base1, spin := spin2, rotation := rot2 }

/-- One per-mesh iteration of `GarbageField.update` (lines 57-132): the
skip guard, the physics body, then the pit-disposal check, which marks
the mesh `respawning` and schedules the deferred callback (the returned
`Bool`). -/
def stepMesh (env : StepEnv) (m : Mesh) : Mesh × Bool :=
  if m.state.isSkipped then (m, false)
  else
    let m1 := stepBody env m
    if m1.position.y < killY then ({ m1 with state := .respawning }, true)
    else (m1, false)

/-! ## Respawn (`GarbageField.respawn` / `#randomPosition`) -/

/-- The radius draw of `GarbageField.#randomPosition` (line 230):
`innerRadius + 3 + Math.random() * 10` with `u1` the random draw. -/
def randomRadius (u1 : ℚ) : ℚ := innerRadius + 3 + u1 * 10

/-- The height draw of `GarbageField.#randomPosition` (line 234):
`6 + Math.random() * 6` with `u2` the random draw. -/
def randomHeight (u2 : ℚ) : ℚ := 6 + u2 * 6

/-- `GarbageField.#randomPosition` (lines 229-236).  The random angle is
represented by its cosine/sine pair `(c, s)` (with `c^2 + s^2 = 1`):
`x = cos(angle) * radius`, `z = sin(angle) * radius`. -/
def randomPosition (u1 u2 c s : ℚ) : Vec3 :=
  ⟨c * randomRadius u1, randomHeight u2, s * randomRadius u1⟩

/-- The body of the deferred `setTimeout` callback of
`GarbageField.respawn` (lines 139-146): unconditionally repositions the
mesh to a fresh random position, zeroes its velocity, resets the base
height and returns the state to `floating`. -/
def fireRespawn (u1 u2 c s : ℚ) (m : Mesh) : Mesh :=
  let p := randomPosition u1 u2 c s
  { m with position := p, velocity := Vec3.zero, baseHeight := p.y,
           state := .floating, visible := true }

/-- A deferred respawn scheduled by `setTimeout`: the target mesh index
and the delay in milliseconds. -/
structure PendingRespawn where
  meshIdx : Nat
  delayMs : ℚ
deriving DecidableEq, Repr

/-- The `GarbageField` instance state relevant to respawn scheduling:
its mesh list and the in-flight deferred respawn timers. -/
structure FieldState where
  meshes : List Mesh
  pending : List PendingRespawn
deriving DecidableEq, Repr

/-- `GarbageField.respawn` (lines 136-147): the mesh is immediately
marked `respawning` and a 300 ms deferred callback is scheduled. -/
def scheduleRespawn (f : FieldState) (i : Nat) : FieldState :=
  { meshes := updMesh f.meshes i (fun m => { m with state := .respawning })
    pending := f.pending ++ [⟨i, respawnDelayMs⟩] }

/-- `GarbageField.reset` (lines 162-172): every mesh is disposed and the
list repopulated; nothing in the method (or anywhere in the class)
clears a pending `setTimeout`, so the in-flight timers survive. -/
def resetField (newMeshes : List Mesh) (f : FieldState) : FieldState :=
  { meshes := newMeshes, pending := f.pending }

/-! ## Per-tick orchestration order of the two `SceneManager` variants -/

/-- The subsystems sequenced by a `SceneManager` tick. -/
inductive Subsystem where
  | playerMove
  | zoneMotion
  | targeting
  | fieldPhysics
  | captureTest
deriving DecidableEq, Repr

/-- Tick order of `SceneManager.update` in src/src/core/SceneManager.js
(lines 94-129): player movement, collector orbit animation, laser tool,
field physics, then the collector capture test. -/
def sceneManagerOrder : List Subsystem :=
  [.playerMove, .zoneMotion, .targeting, .fieldPhysics, .captureTest]

/-- Tick order of the `SceneManager` variant in src/unnamed/part_004
(lines 45-58): player movement, pit animation, field physics, laser
tool, then the pit capture test. -/
def part004Order : List Subsystem :=
  [.playerMove, .zoneMotion, .fieldPhysics, .targeting, .captureTest]

/-! ## Shared helper lemmas -/

theorem stepMesh_of_skipped (env : StepEnv) (m : Mesh)
    (h : m.state.isSkipped = true) : stepMesh env m = (m, false) := by
  simp [stepMesh, h]

theorem pulled_pitSkipped (m : Mesh) (h : m.state = .pulled) :
    m.state.pitSkipped = true := by
  rw [h]; rfl

theorem attachCargo_reject (w : World) (i k : Nat) (ctrl : Option Nat)
    (hheld : w.held = some k) (hki : k ≠ i) : attachCargo w i ctrl = w := by
  simp [attachCargo, hheld, hki]

theorem attachCargo_meshes (w : World) (i : Nat) (ctrl : Option Nat)
    (hheld : w.held = none ∨ w.held = some i) :
    (attachCargo w i ctrl).meshes = updMesh w.meshes i (heldMark ctrl) := by
  rcases hheld with h | h <;> simp [attachCargo, h]

theorem pullTowardsHand_noTool (w : World) (handPos : Vec3) (delta dist : ℚ)
    (htool : w.tool = none) : pullTowardsHand w handPos delta dist = w := by
  simp [pullTowardsHand, htool]

theorem pullTowardsHand_noMesh (w : World) (handPos : Vec3) (delta dist : ℚ)
    (t : Nat) (htool : w.tool = some t) (hmt : w.meshes[t]? = none) :
    pullTowardsHand w handPos delta dist = w := by
  simp [pullTowardsHand, htool, hmt]

theorem pullTowardsHand_attach (w : World) (handPos : Vec3) (delta dist : ℚ)
    (t : Nat) (mt : Mesh) (htool : w.tool = some t)
    (hmt : w.meshes[t]? = some mt)
    (hd : Vec3.distSq handPos mt.position < grabThreshold ^ 2) :
    pullTowardsHand w handPos delta dist =
      { meshes := (attachCargo w t none).meshes, tool := none,
        held := (attachCargo w t none).held } := by
  simp [pullTowardsHand, htool, hmt, hd]

theorem pullTowardsHand_move (w : World) (handPos : Vec3) (delta dist : ℚ)
    (t : Nat) (mt : Mesh) (htool : w.tool = some t)
    (hmt : w.meshes[t]? = some mt)
    (hd : ¬ Vec3.distSq handPos mt.position < grabThreshold ^ 2) :
    pullTowardsHand w handPos delta dist =
      { w with meshes := updMesh w.meshes t (pullMove handPos delta dist) } := by
  simp [pullTowardsHand, htool, hmt, hd]

theorem releaseIfRespawning_noTool (w : World) (htool : w.tool = none) :
    releaseIfRespawning w = w := by
  simp [releaseIfRespawning, htool]

theorem releaseIfRespawning_noMesh (w : World) (t : Nat)
    (htool : w.tool = some t) (hmt : w.meshes[t]? = none) :
    releaseIfRespawning w = w := by
  simp [releaseIfRespawning, htool, hmt]

theorem releaseIfRespawning_stay (w : World) (t : Nat) (mt : Mesh)
    (htool : w.tool = some t) (hmt : w.meshes[t]? = some mt)
    (h : ¬ mt.state = .respawning) : releaseIfRespawning w = w := by
  simp [releaseIfRespawning, htool, hmt, h]

theorem releaseIfRespawning_fire (w : World) (t : Nat) (mt : Mesh)
    (htool : w.tool = some t) (hmt : w.meshes[t]? = some mt)
    (h : mt.state = .respawning) :
    releaseIfRespawning w =
      { w with tool := none, meshes := updMesh w.meshes t floatMark } := by
  simp [releaseIfRespawning, releaseTarget, htool, hmt, h]

theorem acquireJs_someTool (w : World) (hits : List Nat) (t : Nat)
    (htool : w.tool = some t) : acquireJs w hits = w := by
  cases hits <;> simp [acquireJs, htool]

theorem acquireJs_nil (w : World) : acquireJs w [] = w := by
  cases htool : w.tool <;> simp [acquireJs, htool]

theorem acquireJs_cons (w : World) (i0 : Nat) (rest : List Nat)
    (htool : w.tool = none) :
    acquireJs w (i0 :: rest) =
      { w with tool := some i0, meshes := updMesh w.meshes i0 acquireMark } := by
  simp [acquireJs, htool]

/-! ## Claim C1 -/

/-- The eligibility relation asserted by claim C1 for a capture at
current time `now`: only `floating`, or `thrown` with at least the
500 ms immunity window elapsed since the throw timestamp. -/
def claimC1Eligible (now : ℚ) (m : Mesh) : Prop :=
  m.state = .floating ∨
    (m.state = .thrown ∧ ∃ t, m.thrownTime = some t ∧ throwCooldown ≤ now - t)

/-- Claim C1 as stated, over both capture passes of the repository. -/
def claimC1 : Prop :=
  (∀ (cpos : Vec3) (now : ℚ) (m : Mesh),
     collectorCaptures cpos m = true → claimC1Eligible now m) ∧
  (∀ (now : ℚ) (m : Mesh), pitCaptures now m = true → claimC1Eligible now m)

/-- A debris thrown at time 1000 and still in flight. -/
def cexC1Mesh : Mesh := { baseMesh with state := .thrown, thrownTime := some 1000 }

/-- C1 counterexample: a debris thrown at time 1000 and sitting at a
collector's centre is captured by `#checkCollectorCollisions` when
tested at time 1100, only 100 ms after the throw — the collector pass
consults no immunity window at all. -/
theorem collector_capture_ignores_immunity : ¬ claimC1 := by
  rintro ⟨hA, -⟩
  rcases hA ⟨0, 0, 0⟩ 1100 cexC1Mesh
      (by norm_num [collectorCaptures, collectorStateEligible, checkCollision,
        Vec3.distSq, Vec3.lengthSq, Vec3.sub, collectionRadius, cexC1Mesh,
        baseMesh, Vec3.zero]) with h1 | ⟨-, t, ht, hle⟩
  · exact absurd h1 (by decide)
  · have hteq : (1000 : ℚ) = t := by
      have := ht
      simp only [cexC1Mesh, baseMesh] at this
      exact Option.some.inj this
    rw [← hteq] at hle
    norm_num [throwCooldown] at hle

/-- C1 (amended): the `SceneManager` collector pass captures only
`thrown` or `floating` debris, with no immunity check; the
`CollectorPit` pass captures only `floating` or `falling` debris —
never `thrown` — and excludes a `floating` debris whose (nonzero)
throw timestamp is less than 500 ms old. -/
theorem capture_pass_eligibility (cpos : Vec3) (now : ℚ) (m : Mesh) :
    (collectorCaptures cpos m = true →
      m.state = .thrown ∨ m.state = .floating) ∧
    (pitCaptures now m = true →
      (m.state = .floating ∨ m.state = .falling) ∧ m.visible = true ∧
        (m.state = .floating → recentThrow now m = false)) := by
  constructor
  · intro h
    simp only [collectorCaptures, collectorStateEligible, Bool.and_eq_true,
      Bool.or_eq_true, decide_eq_true_eq] at h
    exact h.1
  · intro h
    unfold pitCaptures at h
    split at h
    · exact absurd h (by simp)
    · next hc1 =>
      split at h
      · exact absurd h (by simp)
      · next hc2 =>
        simp only [Bool.or_eq_true, Bool.not_eq_true', not_or] at hc1
        obtain ⟨hvis, hskip⟩ := hc1
        refine ⟨?_, ?_, ?_⟩
        · cases hst : m.state <;> simp [hst, DState.pitSkipped] at hskip ⊢
        · simpa using hvis
        · intro hfl
          simp only [Bool.and_eq_true, decide_eq_true_eq, not_and] at hc2
          cases hrt : recentThrow now m
          · rfl
          · exact absurd hrt (by simp [hc2 hfl])

/-- C1 witness: a plain floating debris at a collector's centre is
captured there, and the amended eligibility applies to it. -/
theorem capture_pass_eligibility_witness :
    baseMesh.state = .thrown ∨ baseMesh.state = .floating :=
  (capture_pass_eligibility ⟨0, 0, 0⟩ 0 baseMesh).1
    (by norm_num [collectorCaptures, collectorStateEligible, checkCollision,
      Vec3.distSq, Vec3.lengthSq, Vec3.sub, collectionRadius, baseMesh,
      Vec3.zero])

/-! ## Claim C4 -/

/-- C4: a debris processed by the field update whose resulting height is
below the kill threshold −15 is immediately marked `respawning` with
the 300 ms deferred callback scheduled, and the callback repositions it
into the annulus strictly outside the pit radius at an elevated height
in `[6, 12)`, with zero velocity and state back to `floating`. -/
theorem kill_plane_respawn_round_trip (env : StepEnv) (m : Mesh)
    (u1 u2 c s : ℚ)
    (hskip : m.state.isSkipped = false)
    (hkill : (stepMesh env m).1.position.y < killY)
    (hu1 : 0 ≤ u1) (hu1' : u1 < 1) (hu2 : 0 ≤ u2) (hu2' : u2 < 1)
    (hcs : c ^ 2 + s ^ 2 = 1) :
    (stepMesh env m).1.state = .respawning ∧ (stepMesh env m).2 = true ∧
    respawnDelayMs = 300 ∧
    (∀ mm : Mesh,
      (fireRespawn u1 u2 c s mm).state = .floating ∧
      (fireRespawn u1 u2 c s mm).velocity = Vec3.zero ∧
      (fireRespawn u1 u2 c s mm).position.x ^ 2 +
        (fireRespawn u1 u2 c s mm).position.z ^ 2 = randomRadius u1 ^ 2 ∧
      innerRadius + 3 ≤ randomRadius u1 ∧ randomRadius u1 < innerRadius + 13 ∧
      6 ≤ (fireRespawn u1 u2 c s mm).position.y ∧
      (fireRespawn u1 u2 c s mm).position.y < 12) := by
  have hbody : stepMesh env m =
      (if (stepBody env m).position.y < killY
        then ({ stepBody env m with state := .respawning }, true)
        else (stepBody env m, false)) := by
    simp [stepMesh, hskip]
  have hcase : (stepBody env m).position.y < killY := by
    by_cases hc : (stepBody env m).position.y < killY
    · exact hc
    · rw [hbody, if_neg hc] at hkill
      exact absurd hkill hc
  rw [hbody, if_pos hcase]
  refine ⟨rfl, rfl, rfl, fun mm => ⟨rfl, rfl, ?_, ?_, ?_, ?_, ?_⟩⟩
  · show (c * randomRadius u1) ^ 2 + (s * randomRadius u1) ^ 2 = randomRadius u1 ^ 2
    have : (c * randomRadius u1) ^ 2 + (s * randomRadius u1) ^ 2 =
        (c ^ 2 + s ^ 2) * randomRadius u1 ^ 2 := by ring
    rw [this, hcs, one_mul]
  · unfold randomRadius; linarith
  · unfold randomRadius; linarith
  · show 6 ≤ randomHeight u2
    unfold randomHeight; linarith
  · show randomHeight u2 < 12
    unfold randomHeight; linarith

/-- Concrete inputs for the C4 witness: a thrown debris well beyond the
platform rim falling past the kill plane. -/
def wC4Mesh : Mesh := { baseMesh with position := ⟨20, -20, 0⟩, state := .thrown }

def wC4Env : StepEnv := ⟨1/60, 0, 0, 1⟩

/-- C4 witness: the kill-plane round trip evaluated at the concrete
debris `wC4Mesh` and the random draws `u1 = u2 = 0`, angle `(3/5, 4/5)`. -/
theorem kill_plane_respawn_round_trip_witness :
    (stepMesh wC4Env wC4Mesh).1.state = .respawning ∧
    (stepMesh wC4Env wC4Mesh).2 = true ∧
    respawnDelayMs = 300 ∧
    (∀ mm : Mesh,
      (fireRespawn 0 0 (3/5) (4/5) mm).state = .floating ∧
      (fireRespawn 0 0 (3/5) (4/5) mm).velocity = Vec3.zero ∧
      (fireRespawn 0 0 (3/5) (4/5) mm).position.x ^ 2 +
        (fireRespawn 0 0 (3/5) (4/5) mm).position.z ^ 2 = randomRadius 0 ^ 2 ∧
      innerRadius + 3 ≤ randomRadius 0 ∧ randomRadius 0 < innerRadius + 13 ∧
      6 ≤ (fireRespawn 0 0 (3/5) (4/5) mm).position.y ∧
      (fireRespawn 0 0 (3/5) (4/5) mm).position.y < 12) :=
  kill_plane_respawn_round_trip wC4Env wC4Mesh 0 0 (3/5) (4/5)
    (by decide)
    (by norm_num [stepMesh, stepBody, wC4Env, wC4Mesh, baseMesh, innerRadius,
      platformTop, platformRadius, killY, DState.isSkipped, Vec3.add,
      Vec3.smul, Vec3.lengthSq, Vec3.reflectUp, Vec3.zero])
    (by norm_num) (by norm_num) (by norm_num) (by norm_num) (by norm_num)

/-! ## Claim C5 -/

/-- C5: one per-tick field update leaves a `pulled`, `held` or
`respawning` debris completely unchanged (position, velocity, state,
rotation, everything) and schedules nothing for it. -/
theorem field_update_skips_owned (env : StepEnv) (m : Mesh)
    (h : m.state = .pulled ∨ m.state = .held ∨ m.state = .respawning) :
    stepMesh env m = (m, false) := by
  apply stepMesh_of_skipped
  rcases h with h | h | h <;> rw [h] <;> rfl

/-- C5 witness: a pulled debris is untouched by the field step. -/
theorem field_update_skips_owned_witness :
    stepMesh wC4Env { baseMesh with state := .pulled } =
      ({ baseMesh with state := .pulled }, false) :=
  field_update_skips_owned wC4Env { baseMesh with state := .pulled }
    (Or.inl rfl)

/-! ## Claim C8 -/

/-- The per-tick ordering asserted by claim C8 for one manager:
targeting strictly before field physics, and the capture test strictly
after both. -/
def tickOrderClaim (o : List Subsystem) : Prop :=
  o.indexOf .targeting < o.indexOf .fieldPhysics ∧
  o.indexOf .fieldPhysics < o.indexOf .captureTest ∧
  o.indexOf .targeting < o.indexOf .captureTest

/-- Claim C8 as stated: the ordering holds on every tick, i.e. for both
`SceneManager` variants in the repository. -/
def claimC8 : Prop := tickOrderClaim sceneManagerOrder ∧ tickOrderClaim part004Order

/-- C8 counterexample: in the src/unnamed/part_004 variant the field
physics update runs *before* the targeting update, so the claimed
ordering fails there. -/
theorem part004_physics_before_targeting : ¬ claimC8 := by
  unfold claimC8 tickOrderClaim sceneManagerOrder part004Order
  decide

/-- C8 (amended): in `SceneManager.js` the targeting update precedes
field physics and the capture test follows both; in the part_004
variant field physics precedes targeting, with the capture test still
last. -/
theorem tick_order_of_variants :
    tickOrderClaim sceneManagerOrder ∧
    part004Order.indexOf .fieldPhysics < part004Order.indexOf .targeting ∧
    part004Order.indexOf .targeting < part004Order.indexOf .captureTest := by
  unfold tickOrderClaim sceneManagerOrder part004Order
  decide

/-! ## Claim C9 -/

/-- C9: nothing cancels a scheduled respawn — `reset` leaves the pending
timers untouched, `respawn` schedules exactly the 300 ms callback, and
the callback body is unconditional: for *any* mesh (disposed, reset or
otherwise) it forces state `floating` and zero velocity. -/
theorem respawn_never_cancelled (f : FieldState) (newMeshes : List Mesh)
    (i : Nat) (u1 u2 c s : ℚ) (m : Mesh) :
    (resetField newMeshes f).pending = f.pending ∧
    (scheduleRespawn f i).pending = f.pending ++ [⟨i, respawnDelayMs⟩] ∧
    respawnDelayMs = 300 ∧
    (fireRespawn u1 u2 c s m).state = .floating ∧
    (fireRespawn u1 u2 c s m).velocity = Vec3.zero :=
  ⟨rfl, rfl, rfl, rfl, rfl⟩

/-! ## Claim C2 -/

/-- Claim C2 as stated (for the `LaserTool.js` variant): an object in
state `held` is never acquired as a target. -/
def claimC2 : Prop :=
  ∀ (w : World) (hits : List Nat) (i : Nat) (m : Mesh),
    w.tool = none → hits.head? = some i → w.meshes[i]? = some m →
    m.state = .held → (acquireJs w hits).tool ≠ some i

/-- A carrier-held mesh sitting in the debris list (held meshes are
never removed from `garbageField.meshes`, so the raycaster can hit
them). -/
def cexC2World : World :=
  { meshes := [{ baseMesh with state := .held }], tool := none, held := some 0 }

/-- C2 counterexample: the acquisition step of `LaserTool.js`
(lines 60-67) checks no state at all: with the carrier holding mesh 0
(state `held`) and the aim ray hitting it first, the tool acquires it
as its target (and re-states it `pulled`). -/
theorem held_mesh_acquired_by_laserToolJs : ¬ claimC2 := by
  intro h
  exact h cexC2World [0] 0 { baseMesh with state := .held } rfl rfl rfl rfl rfl

/-- C2 (amended): with the tool active, no current target and a ray
hit, the pistol-variant tool (src/unnamed/part_003) refuses a nearest
hit whose state is already `held` (acquiring nothing at all), while the
`LaserTool.js` variant acquires the nearest hit unconditionally; on
acquisition the hit's velocity is zeroed and its state set `pulled`. -/
theorem acquisition_held_guard (w : World) (hits : List Nat) (i : Nat)
    (m : Mesh) (htool : w.tool = none) (hhead : hits.head? = some i)
    (hm : w.meshes[i]? = some m) :
    (m.state = .held → acquirePistol w hits = w) ∧
    ((acquireJs w hits).tool = some i ∧
      (acquireJs w hits).meshes[i]? = some (acquireMark m)) := by
  obtain ⟨i', rest, rfl⟩ : ∃ i' rest, hits = i' :: rest := by
    cases hits with
    | nil => simp at hhead
    | cons a t => exact ⟨a, t, rfl⟩
  have hi : i' = i := by simpa using hhead
  subst hi
  refine ⟨fun hheld => ?_, ?_, ?_⟩
  · simp [acquirePistol, htool, hm, hheld]
  · simp [acquireJs, htool]
  · simp [acquireJs, htool, updMesh_getElem_self, hm]

/-- C2 witness: a plain floating mesh is acquired by both variants'
acquisition step (the pistol guard holds vacuously for it). -/
theorem acquisition_held_guard_witness :
    (baseMesh.state = .held →
      acquirePistol ⟨[baseMesh], none, none⟩ [0] = ⟨[baseMesh], none, none⟩) ∧
    ((acquireJs ⟨[baseMesh], none, none⟩ [0]).tool = some 0 ∧
      (acquireJs ⟨[baseMesh], none, none⟩ [0]).meshes[0]? =
        some (acquireMark baseMesh)) :=
  acquisition_held_guard ⟨[baseMesh], none, none⟩ [0] 0 baseMesh rfl rfl rfl

/-! ## Claim C3 -/

/-- Claim C3 as stated (the timestamp part): every throw of a held
object leaves a throw timestamp on the thrown mesh. -/
def claimC3 : Prop :=
  ∀ (w : World) (dir : Vec3) (invLen strength : ℚ) (i : Nat),
    w.held = some i →
    ∀ m', (throwCargo w dir invLen strength).meshes[i]? = some m' →
      m'.thrownTime ≠ none

/-- A world whose carrier holds mesh 0 (no timestamp yet). -/
def cexC3World : World :=
  { meshes := [{ baseMesh with state := .held }], tool := none, held := some 0 }

/-- C3 counterexample: the desktop throw path calls `Player.throwCargo`
directly (`mouseup` handler of LaserTool, strength 18) and `throwCargo`
never writes `thrownTime`; the thrown mesh still carries no timestamp. -/
theorem throwCargo_stamps_no_timestamp : ¬ claimC3 := by
  intro h
  exact h cexC3World ⟨0, 0, -1⟩ 1 18 0 rfl _ rfl rfl

/-- C3 (amended): a throw with nothing held is a strict no-op; a throw
of a held mesh sets its velocity to the normalized direction times the
strength, sets state `thrown` and clears the slot but leaves the throw
timestamp untouched — the timestamp is stamped only by the VR wrapper
`throwHeldObject` (which throws with strength 80). -/
theorem throw_semantics (w : World) (i : Nat) (m : Mesh) (dir : Vec3)
    (invLen strength now : ℚ) (hm : w.meshes[i]? = some m) :
    (w.held = none → throwCargo w dir invLen strength = w) ∧
    (w.held = some i →
      (throwCargo w dir invLen strength).held = none ∧
      (throwCargo w dir invLen strength).meshes[i]? =
        some { m with velocity := Vec3.smul strength (Vec3.smul invLen dir),
                      state := .thrown }) ∧
    (w.held = some i →
      (throwHeldObject w dir invLen now).held = none ∧
      (throwHeldObject w dir invLen now).meshes[i]? =
        some { m with velocity := Vec3.smul 80 (Vec3.smul invLen dir),
                      state := .thrown, thrownTime := some now }) ∧
    (invLen ^ 2 * Vec3.lengthSq dir = 1 →
      Vec3.lengthSq (Vec3.smul strength (Vec3.smul invLen dir)) =
        strength ^ 2) := by
  refine ⟨fun hh => ?_, fun hh => ⟨?_, ?_⟩, fun hh => ⟨?_, ?_⟩, fun hl => ?_⟩
  · simp [throwCargo, hh]
  · simp [throwCargo, hh]
  · simp [throwCargo, hh, updMesh_getElem_self, hm]
  · simp [throwHeldObject, throwCargo, hh]
  · simp [throwHeldObject, throwCargo, hh, updMesh_getElem_self, hm]
  · simp only [Vec3.smul, Vec3.lengthSq] at hl ⊢
    nlinarith [hl]

/-- C3 witness: the throw semantics evaluated on a world holding mesh 0,
thrown along `(0,0,-1)` with strength 18 at time 42. -/
theorem throw_semantics_witness :
    (cexC3World.held = none →
      throwCargo cexC3World ⟨0, 0, -1⟩ 1 18 = cexC3World) ∧
    (cexC3World.held = some 0 →
      (throwCargo cexC3World ⟨0, 0, -1⟩ 1 18).held = none ∧
      (throwCargo cexC3World ⟨0, 0, -1⟩ 1 18).meshes[0]? =
        some { { baseMesh with state := .held } with
               velocity := Vec3.smul 18 (Vec3.smul 1 ⟨0, 0, -1⟩),
               state := .thrown }) ∧
    (cexC3World.held = some 0 →
      (throwHeldObject cexC3World ⟨0, 0, -1⟩ 1 42).held = none ∧
      (throwHeldObject cexC3World ⟨0, 0, -1⟩ 1 42).meshes[0]? =
        some { { baseMesh with state := .held } with
               velocity := Vec3.smul 80 (Vec3.smul 1 ⟨0, 0, -1⟩),
               state := .thrown, thrownTime := some 42 }) ∧
    ((1 : ℚ) ^ 2 * Vec3.lengthSq ⟨0, 0, -1⟩ = 1 →
      Vec3.lengthSq (Vec3.smul 18 (Vec3.smul 1 ⟨0, 0, -1⟩)) = (18 : ℚ) ^ 2) :=
  throw_semantics cexC3World 0 { baseMesh with state := .held }
    ⟨0, 0, -1⟩ 1 18 42 rfl

/-! ## Claim C7 -/

/-- C7: an attach while the carrier holds a *different* mesh is rejected
with no mutation anywhere; re-attaching the mesh that is already held
(with the controller it was attached with) changes nothing; releasing
with no referenced target changes nothing. -/
theorem attach_conflict_and_idempotence (w : World) (i j : Nat) (m : Mesh)
    (ctrl : Option Nat) (hm : w.meshes[i]? = some m) :
    (w.held = some j → j ≠ i → attachCargo w i ctrl = w) ∧
    (w.held = some i → m.state = .held → m.xrController = ctrl →
      attachCargo w i ctrl = w) ∧
    (w.tool = none → releaseTarget w = w) := by
  refine ⟨fun hh hne => ?_, fun hh hst hctrl => ?_, fun ht => ?_⟩
  · simp [attachCargo, hh, hne]
  · have hf : heldMark ctrl m = m := by
      cases m
      simp only at hst hctrl
      simp [heldMark, hst, hctrl]
    obtain ⟨ms, tl, hd⟩ := w
    simp only at hh hm
    subst hh
    simp only [attachCargo, if_pos rfl]
    rw [updMesh_eq_self _ _ _ m hm hf]
    simp
  · simp [releaseTarget, ht]

/-- A world whose carrier holds mesh 0, with a second floating mesh. -/
def wC7World : World :=
  { meshes := [{ baseMesh with state := .held }, baseMesh],
    tool := none, held := some 0 }

/-- C7 witness: with mesh 0 held, an attach of the different mesh 1 is
rejected unchanged, and a release with no target is the identity. -/
theorem attach_conflict_and_idempotence_witness :
    (wC7World.held = some 0 → (0 : Nat) ≠ 1 →
      attachCargo wC7World 1 none = wC7World) ∧
    (wC7World.held = some 1 → baseMesh.state = .held →
      baseMesh.xrController = none → attachCargo wC7World 1 none = wC7World) ∧
    (wC7World.tool = none → releaseTarget wC7World = wC7World) :=
  attach_conflict_and_idempotence wC7World 1 0 baseMesh none rfl

/-! ## Claim C10 -/

/-- Claim C10 as stated (the "no subsystem ever updates it again" part,
specialised to targeting): a `pulled` mesh with no owner is never
re-acquired by the targeting tool. -/
def claimC10 : Prop :=
  ∀ (w : World) (hits : List Nat) (i : Nat) (m : Mesh),
    w.meshes[i]? = some m → m.state = .pulled → w.tool = none →
    (acquireJs w hits).tool ≠ some i

/-- An orphaned `pulled` mesh with no owner anywhere. -/
def cexC10World : World :=
  { meshes := [{ baseMesh with state := .pulled }], tool := none, held := none }

/-- C10 counterexample: the targeting tool *can* update an orphaned
`pulled` mesh again — acquisition does not exclude `pulled` objects, so
aiming at the orphan with a free tool re-acquires it. -/
theorem orphaned_pulled_mesh_reacquirable : ¬ claimC10 := by
  intro h
  exact h cexC10World [0] 0 { baseMesh with state := .pulled } rfl rfl rfl rfl

/-- C10 (amended): if the pull step finds its target within the capture
threshold while the carrier holds a *different* mesh, the attach is
rejected yet the targeting reference is still cleared, leaving the mesh
`pulled` with all its data untouched; field physics, both capture
passes and the respawn path then skip it — but it is not permanently
lost, since acquisition can still re-acquire a `pulled` mesh. -/
theorem rejected_attach_orphans_target (w : World) (handPos : Vec3)
    (delta dist : ℚ) (i j : Nat) (m : Mesh)
    (htool : w.tool = some i) (hm : w.meshes[i]? = some m)
    (hheld : w.held = some j) (hne : j ≠ i)
    (hstate : m.state = .pulled)
    (hdist : Vec3.distSq handPos m.position < grabThreshold ^ 2) :
    (pullTowardsHand w handPos delta dist).tool = none ∧
    (pullTowardsHand w handPos delta dist).held = some j ∧
    (pullTowardsHand w handPos delta dist).meshes = w.meshes ∧
    (∀ env, stepMesh env m = (m, false)) ∧
    (∀ now, pitCaptures now m = false) ∧
    (∀ cpos, collectorCaptures cpos m = false) := by
  have hatt : attachCargo w i none = w := by
    simp [attachCargo, hheld, hne]
  have hpull : pullTowardsHand w handPos delta dist = { w with tool := none } := by
    simp [pullTowardsHand, htool, hm, hdist, hatt]
  refine ⟨?_, ?_, ?_, ?_, ?_, ?_⟩
  · rw [hpull]
  · rw [hpull]; exact hheld
  · rw [hpull]
  · exact fun env => stepMesh_of_skipped env m (by rw [hstate]; rfl)
  · intro now
    simp [pitCaptures, pulled_pitSkipped m hstate]
  · intro cpos
    simp [collectorCaptures, collectorStateEligible, hstate]

/-- The rejected-attach scenario: tool pulls mesh 0 to within the
threshold while the carrier holds mesh 1. -/
def wC10World : World :=
  { meshes := [{ baseMesh with state := .pulled }, { baseMesh with state := .held }],
    tool := some 0, held := some 1 }

/-- C10 witness: the orphaning step evaluated on the concrete
rejected-attach scenario. -/
theorem rejected_attach_orphans_target_witness :
    (pullTowardsHand wC10World Vec3.zero (1/60) 0).tool = none ∧
    (pullTowardsHand wC10World Vec3.zero (1/60) 0).held = some 1 ∧
    (pullTowardsHand wC10World Vec3.zero (1/60) 0).meshes = wC10World.meshes ∧
    (∀ env, stepMesh env { baseMesh with state := .pulled } =
      ({ baseMesh with state := .pulled }, false)) ∧
    (∀ now, pitCaptures now { baseMesh with state := .pulled } = false) ∧
    (∀ cpos, collectorCaptures cpos { baseMesh with state := .pulled } = false) :=
  rejected_attach_orphans_target wC10World Vec3.zero (1/60) 0 0 1
    { baseMesh with state := .pulled } rfl rfl rfl (by decide) rfl
    (by norm_num [Vec3.distSq, Vec3.lengthSq, Vec3.sub, Vec3.zero, baseMesh,
      grabThreshold])

/-! ## Claim C6 -/

/-- C6: over one active tick of the `LaserTool.js` update, a mesh that
ends `held` without having been `held` before was, at the moment of the
hand-off, the tool's target in state `pulled` and within the 0.4-unit
capture threshold of the hand position.  In particular `Pulled → Held`
happens only below the threshold, and no mesh jumps `Floating → Held`
without passing through `Pulled`.  The hypothesis `hinv` is the
ownership invariant: an existing tool target is `pulled` (or
`respawning`, about to be released). -/
theorem pulled_to_held_only_within_threshold (w : World) (hits : List Nat)
    (handPos : Vec3) (delta dist : ℚ) (i : Nat) (m m' : Mesh)
    (hinv : ∀ j mj, w.tool = some j → w.meshes[j]? = some mj →
      mj.state = .pulled ∨ mj.state = .respawning)
    (hm : w.meshes[i]? = some m)
    (hm' : (toolUpdateJs w true hits handPos delta dist).meshes[i]? = some m')
    (hpre : m.state ≠ .held) (hpost : m'.state = .held) :
    ∃ mmid, (releaseIfRespawning (acquireJs w hits)).meshes[i]? = some mmid ∧
      mmid.state = .pulled ∧
      Vec3.distSq handPos mmid.position < grabThreshold ^ 2 := by
  have htu : toolUpdateJs w true hits handPos delta dist =
      pullTowardsHand (releaseIfRespawning (acquireJs w hits)) handPos delta dist := by
    simp [toolUpdateJs]
  rw [htu] at hm'
  have done : w.meshes[i]? = some m' → False := by
    intro h
    rw [hm] at h
    injection h with h2
    exact hpre (by rw [h2]; exact hpost)
  cases htool : w.tool with
  | some j =>
    rw [acquireJs_someTool w hits j htool] at hm' ⊢
    cases hmj : w.meshes[j]? with
    | none =>
      rw [releaseIfRespawning_noMesh w j htool hmj] at hm' ⊢
      rw [pullTowardsHand_noMesh w handPos delta dist j htool hmj] at hm'
      exact (done hm').elim
    | some mj =>
      rcases hinv j mj htool hmj with hpl | hrs
      · -- target already pulled: the release phase is a no-op
        rw [releaseIfRespawning_stay w j mj htool hmj (by simp [hpl])] at hm' ⊢
        by_cases hd : Vec3.distSq handPos mj.position < grabThreshold ^ 2
        · rw [pullTowardsHand_attach w handPos delta dist j mj htool hmj hd] at hm'
          try simp only [] at hm'
          cases hheld : w.held with
          | none =>
            rw [attachCargo_meshes w j none (Or.inl hheld)] at hm'
            by_cases hij : i = j
            · subst hij
              exact ⟨mj, hmj, hpl, hd⟩
            · rw [updMesh_getElem_ne _ _ _ _ (Ne.symm hij)] at hm'
              exact (done hm').elim
          | some k =>
            by_cases hkj : k = j
            · subst hkj
              rw [attachCargo_meshes w k none (Or.inr hheld)] at hm'
              by_cases hij : i = k
              · subst hij
                exact ⟨mj, hmj, hpl, hd⟩
              · rw [updMesh_getElem_ne _ _ _ _ (Ne.symm hij)] at hm'
                exact (done hm').elim
            · rw [attachCargo_reject w j k none hheld hkj] at hm'
              exact (done hm').elim
        · rw [pullTowardsHand_move w handPos delta dist j mj htool hmj hd] at hm'
          try simp only [] at hm'
          by_cases hij : i = j
          · subst hij
            rw [updMesh_getElem_self, hm] at hm'
            simp only [Option.map_some'] at hm'
            injection hm' with h
            rw [← h] at hpost
            exact (hpre hpost).elim
          · rw [updMesh_getElem_ne _ _ _ _ (Ne.symm hij)] at hm'
            exact (done hm').elim
      · -- target respawning: released, tool cleared, the pull is a no-op
        rw [releaseIfRespawning_fire w j mj htool hmj hrs] at hm' ⊢
        rw [pullTowardsHand_noTool _ handPos delta dist rfl] at hm'
        try simp only [] at hm'
        by_cases hij : i = j
        · subst hij
          rw [updMesh_getElem_self, hm] at hm'
          simp only [Option.map_some'] at hm'
          injection hm' with h
          rw [← h] at hpost
          simp [floatMark] at hpost
        · rw [updMesh_getElem_ne _ _ _ _ (Ne.symm hij)] at hm'
          exact (done hm').elim
  | none =>
    cases hits with
    | nil =>
      rw [acquireJs_nil] at hm' ⊢
      rw [releaseIfRespawning_noTool w htool] at hm' ⊢
      rw [pullTowardsHand_noTool w handPos delta dist htool] at hm'
      exact (done hm').elim
    | cons i0 rest =>
      rw [acquireJs_cons w i0 rest htool] at hm' ⊢
      cases hm0 : w.meshes[i0]? with
      | none =>
        have hmu : updMesh w.meshes i0 acquireMark = w.meshes := by
          unfold updMesh
          rw [hm0]
        rw [hmu] at hm' ⊢
        have hwa0 : ({ w with tool := some i0, meshes := w.meshes } : World).meshes[i0]? = none := hm0
        rw [releaseIfRespawning_noMesh _ i0 rfl hwa0] at hm' ⊢
        rw [pullTowardsHand_noMesh _ handPos delta dist i0 rfl hwa0] at hm'
        try simp only [] at hm'
        exact (done hm').elim
      | some m0 =>
        have hwa0 : ({ w with tool := some i0, meshes := updMesh w.meshes i0 acquireMark } : World).meshes[i0]? = some (acquireMark m0) := by
          show (updMesh w.meshes i0 acquireMark)[i0]? = some (acquireMark m0)
          rw [updMesh_getElem_self, hm0]
          rfl
        rw [releaseIfRespawning_stay _ i0 (acquireMark m0) rfl hwa0 (by simp [acquireMark])] at hm' ⊢
        by_cases hd : Vec3.distSq handPos (acquireMark m0).position < grabThreshold ^ 2
        · rw [pullTowardsHand_attach _ handPos delta dist i0 (acquireMark m0) rfl hwa0 hd] at hm'
          try simp only [] at hm'
          by_cases hij : i = i0
          · subst hij
            exact ⟨acquireMark m0, hwa0, rfl, hd⟩
          · cases hheld : w.held with
            | none =>
              have hwh : ({ w with tool := some i0, meshes := updMesh w.meshes i0 acquireMark } : World).held = none := hheld
              rw [attachCargo_meshes _ i0 none (Or.inl hwh)] at hm'
              rw [updMesh_getElem_ne _ _ _ _ (Ne.symm hij)] at hm'
              try rw [show ({ w with tool := some i0, meshes := updMesh w.meshes i0 acquireMark } : World).meshes = updMesh w.meshes i0 acquireMark from rfl] at hm'
              rw [updMesh_getElem_ne _ _ _ _ (Ne.symm hij)] at hm'
              exact (done hm').elim
            | some k =>
              by_cases hki : k = i0
              · subst hki
                have hwh : ({ w with tool := some k, meshes := updMesh w.meshes k acquireMark } : World).held = some k := hheld
                rw [attachCargo_meshes _ k none (Or.inr hwh)] at hm'
                rw [updMesh_getElem_ne _ _ _ _ (Ne.symm hij)] at hm'
                try rw [show ({ w with tool := some k, meshes := updMesh w.meshes k acquireMark } : World).meshes = updMesh w.meshes k acquireMark from rfl] at hm'
                rw [updMesh_getElem_ne _ _ _ _ (Ne.symm hij)] at hm'
                exact (done hm').elim
              · have hwh : ({ w with tool := some i0, meshes := updMesh w.meshes i0 acquireMark } : World).held = some k := hheld
                rw [attachCargo_reject _ i0 k none hwh hki] at hm'
                try simp only [] at hm'
                rw [updMesh_getElem_ne _ _ _ _ (Ne.symm hij)] at hm'
                exact (done hm').elim
        · rw [pullTowardsHand_move _ handPos delta dist i0 (acquireMark m0) rfl hwa0 hd] at hm'
          try simp only [] at hm'
          by_cases hij : i = i0
          · subst hij
            rw [updMesh_getElem_self, hwa0] at hm'
            simp only [Option.map_some'] at hm'
            injection hm' with h
            rw [← h] at hpost
            simp [pullMove, acquireMark] at hpost
          · rw [updMesh_getElem_ne _ _ _ _ (Ne.symm hij)] at hm'
            try rw [show ({ w with tool := some i0, meshes := updMesh w.meshes i0 acquireMark } : World).meshes = updMesh w.meshes i0 acquireMark from rfl] at hm'
            rw [updMesh_getElem_ne _ _ _ _ (Ne.symm hij)] at hm'
            exact (done hm').elim

/-- The C6 witness scenario: a free tool and a floating mesh already
within grab distance of the hand. -/
def wC6World : World :=
  { meshes := [{ baseMesh with position := ⟨1/10, 0, 0⟩ }], tool := none, held := none }

/-- C6 witness: in the concrete tick the nearby floating mesh is hit,
acquired as `pulled` and handed over within the threshold; the theorem
recovers the intermediate `pulled` stage within grab distance. -/
theorem pulled_to_held_only_within_threshold_witness :
    ∃ mmid, (releaseIfRespawning (acquireJs wC6World [0])).meshes[0]? = some mmid ∧
      mmid.state = .pulled ∧
      Vec3.distSq ⟨0, 0, 0⟩ mmid.position < grabThreshold ^ 2 :=
  pulled_to_held_only_within_threshold wC6World [0] ⟨0, 0, 0⟩ (1/60) (1/10) 0
    { baseMesh with position := ⟨1/10, 0, 0⟩ }
    (heldMark none (acquireMark { baseMesh with position := ⟨1/10, 0, 0⟩ }))
    (fun _ _ h _ => by simp [wC6World] at h)
    rfl
    (by norm_num +decide [toolUpdateJs, acquireJs, releaseIfRespawning, pullTowardsHand,
      attachCargo, updMesh, wC6World, acquireMark, heldMark, baseMesh,
      Vec3.distSq, Vec3.lengthSq, Vec3.sub, Vec3.zero, grabThreshold])
    (by decide) rfl

end VRRaum
